import Mathlib

/-!
# byd-stats firmware: hub port-power controller and descriptor classifier

A shallow embedding of `firmware/src/main.cpp`: the descriptor callback
`MyEspUsbHost::onConfig` and the polling function `loop`, with the globals
`portsConfigsDone` and `lastAttemptTime` passed as an explicit state, and the
serial output and control-transfer submissions collected in an event trace.

The USB host stack (`EspUsbHost`) is an external collaborator: what it supplies
to one call of `loop` (the readings of `millis()`, the value of `isReady()`
after `task()`, the status each `submitGenericControl` call returns) is an
input of the embedded function.
-/

namespace BydStats

/-! ## Constants of the platform headers -/

/-- Modelled from the spec: the platform status value that denotes success
(`ESP_OK` of `esp_err.h`, which is not part of the repository); ESP-IDF
defines it as 0. -/
def ESP_OK : Int := 0

/-- Modelled from the spec: the descriptor type tag that identifies an
interface descriptor (`USB_INTERFACE_DESC` of the host-stack headers, which are
not part of the repository); the USB standard value is 4. -/
def USB_INTERFACE_DESC : Nat := 4

/-- Width of `unsigned long` on the target: `millis()` and `lastAttemptTime`
are 32-bit counters. -/
def WORD : Nat := 2 ^ 32

/-- Unsigned 32-bit subtraction `a - b` of two counter values. -/
def sub32 (a b : Nat) : Nat := (a % WORD + (WORD - b % WORD)) % WORD

/-! ## Output events -/

/-- The text lines the firmware prints on `Serial`. -/
inductive Diag where
  /-- Line `INTF: Class=%x Sub=%x Proto=%x`. -/
  | intf (cls sub proto : Nat)
  /-- Line `>>> HUB DETECTED! <<<`. -/
  | hubDetected
  /-- Line `>>> MASS STORAGE DEVICE DETECTED! <<<`. -/
  | massStorageDetected
  /-- Line `Device Connected! Sending Port Power Command...`. -/
  | deviceConnected
  /-- Line `>>> Port 1 Power ON command SENT! <<<`. -/
  | port1Sent
  /-- Line `Command failed (Error 0x%x). Retrying...` with the raw status. -/
  | commandFailed (err : Int)
  /-- Line `Waiting for Hub to be ready...`. -/
  | waiting
  deriving DecidableEq, Repr

/-- The five arguments of one `submitGenericControl` call. -/
structure PortPowerRequest where
  requestType : Nat
  request : Nat
  value : Nat
  index : Nat
  length : Nat
  deriving DecidableEq, Repr

/-- One `submitGenericControl` call: its arguments and the status it returned. -/
structure Submission where
  req : PortPowerRequest
  result : Int
  deriving DecidableEq, Repr

/-- An observable effect of the firmware, in program order. -/
inductive Event where
  | log (d : Diag)
  | submit (s : Submission)
  deriving DecidableEq, Repr

/-- The control transfers of a trace, in order. -/
def submissions : List Event → List Submission
  | [] => []
  | Event.submit s :: es => s :: submissions es
  | Event.log _ :: es => submissions es

/-- The serial lines of a trace, in order. -/
def diagnostics : List Event → List Diag
  | [] => []
  | Event.log d :: es => d :: diagnostics es
  | Event.submit _ :: es => diagnostics es

/-! ## Descriptor classifier -/

/-- Read of the byte at offset `i` of the buffer `p`; `none` when the offset is
outside the buffer (undefined behaviour in the source). -/
def readByte (p : List Nat) (i : Nat) : Option Nat := p[i]?

/-- The callback `MyEspUsbHost::onConfig(bDescriptorType, p)`: the fields `bInterfaceClass`,
`bInterfaceSubClass`, `bInterfaceProtocol` of `usb_intf_desc_t` are at byte
offsets 5, 6 and 7. The result is the list of lines printed, or `none` when a
field read falls outside the buffer. -/
def onConfig (bDescriptorType : Nat) (p : List Nat) : Option (List Diag) :=
  if bDescriptorType = USB_INTERFACE_DESC then
    match readByte p 5, readByte p 6, readByte p 7 with
    | some cls, some sub, some proto =>
      some (Diag.intf cls sub proto ::
        (if cls = 0x09 then [Diag.hubDetected]
         else if cls = 0x08 then [Diag.massStorageDetected]
         else []))
    | _, _, _ => none
  else
    some []

/-! ## Port power controller -/

/-- The globals `portsConfigsDone` and `lastAttemptTime`. -/
structure ControllerState where
  portsConfigsDone : Bool
  lastAttemptTime : Nat
  deriving DecidableEq, Repr

/-- The globals as initialised at firmware start. -/
def initState : ControllerState := { portsConfigsDone := false, lastAttemptTime := 0 }

/-- The request `submitGenericControl(0x23, 0x03, 0x0008, port, 0)`. -/
def powerReq (port : Nat) : PortPowerRequest :=
  { requestType := 0x23, request := 0x03, value := 0x0008, index := port, length := 0 }

/-- The event of submitting the power request of `port`, the call returning
`status port`. -/
def submitGenericControl (status : Nat → Int) (port : Nat) : Event :=
  Event.submit { req := powerReq port, result := status port }

/-- One call of `loop()`. `m1`, `m2`, `m3` are the readings of the three
`millis()` calls (lines 38, 39, 60), `ready` is `usbHost.isReady()` after
`usbHost.task()`, and `status port` is the status the submission for `port`
returns. -/
def loop (s : ControllerState) (m1 m2 m3 : Nat) (ready : Bool) (status : Nat → Int) :
    ControllerState × List Event :=
  if !s.portsConfigsDone && decide (sub32 m1 s.lastAttemptTime > 2000) then
    let s1 : ControllerState := { s with lastAttemptTime := m2 }
    if ready then
      let err := status 1
      if err = ESP_OK then
        ({ s1 with portsConfigsDone := true },
          [Event.log Diag.deviceConnected,
           Event.submit { req := powerReq 1, result := err },
           Event.log Diag.port1Sent,
           submitGenericControl status 2,
           submitGenericControl status 3,
           submitGenericControl status 4])
      else
        (s1,
          [Event.log Diag.deviceConnected,
           Event.submit { req := powerReq 1, result := err },
           Event.log (Diag.commandFailed err)])
    else
      if m3 % 4000 < 100 then
        (s1, [Event.log Diag.waiting])
      else
        (s1, [])
  else
    (s, [])

/-- What the environment supplies to one tick: the clock reading `now` (one
value for the whole tick), the readiness of the host stack, and the status
returned by the submission for each port. -/
structure TickInput where
  now : Nat
  ready : Bool
  status : Nat → Int

/-- One tick of the controller: `loop` with the clock read as the single value
`i.now`. -/
def tick (s : ControllerState) (i : TickInput) : ControllerState × List Event :=
  loop s i.now i.now i.now i.ready i.status

/-- A sequence of ticks: the final state and the concatenated trace. -/
def runTicks (s : ControllerState) : List TickInput → ControllerState × List Event
  | [] => (s, [])
  | i :: rest =>
    let r := tick s i
    let r2 := runTicks r.1 rest
    (r2.1, r.2 ++ r2.2)

/-- The retry throttle of line 38: more than 2000 ms elapsed, in 32-bit
unsigned arithmetic, since `lastAttemptTime`. -/
def throttleOpen (s : ControllerState) (i : TickInput) : Bool :=
  decide (sub32 i.now s.lastAttemptTime > 2000)

/-- The whole condition of line 38: the tick performs an attempt. -/
def attempts (s : ControllerState) (i : TickInput) : Bool :=
  !s.portsConfigsDone && throttleOpen s i

/-- Number of ticks of a sequence that pass the retry throttle. -/
def throttlePasses (s : ControllerState) : List TickInput → Nat
  | [] => 0
  | i :: rest => (if throttleOpen s i then 1 else 0) + throttlePasses (tick s i).1 rest

/-- The controller state before tick number `k` (counting from 0) of the
sequence `is` started in `s`; for `k = is.length` the state after the last
tick. -/
def stateAt (s : ControllerState) (is : List TickInput) (k : Nat) : ControllerState :=
  (runTicks s (is.take k)).1

/-- The events of tick number `k` of the sequence `is` started in `s` (none
when the sequence has no such tick). -/
def eventsAt (s : ControllerState) (is : List TickInput) (k : Nat) : List Event :=
  match is[k]? with
  | some i => (tick (stateAt s is k) i).2
  | none => []

/-! ## Basic facts about one tick -/

theorem tick_done (s : ControllerState) (i : TickInput) (h : s.portsConfigsDone = true) :
    tick s i = (s, []) := by
  simp [tick, loop, h]

theorem tick_throttled (s : ControllerState) (i : TickInput)
    (h : sub32 i.now s.lastAttemptTime ≤ 2000) : tick s i = (s, []) := by
  have h2 : ¬ (2000 < sub32 i.now s.lastAttemptTime) := by omega
  simp [tick, loop, h2]

theorem tick_not_ready (s : ControllerState) (i : TickInput)
    (hd : s.portsConfigsDone = false) (ht : 2000 < sub32 i.now s.lastAttemptTime)
    (hr : i.ready = false) :
    tick s i =
      ({ s with lastAttemptTime := i.now },
        if i.now % 4000 < 100 then [Event.log Diag.waiting] else []) := by
  simp [tick, loop, hd, ht, hr]
  split <;> rfl

theorem tick_fail (s : ControllerState) (i : TickInput)
    (hd : s.portsConfigsDone = false) (ht : 2000 < sub32 i.now s.lastAttemptTime)
    (hr : i.ready = true) (he : i.status 1 ≠ ESP_OK) :
    tick s i =
      ({ s with lastAttemptTime := i.now },
        [Event.log Diag.deviceConnected,
         Event.submit { req := powerReq 1, result := i.status 1 },
         Event.log (Diag.commandFailed (i.status 1))]) := by
  simp [tick, loop, hd, ht, hr, he]

theorem tick_success (s : ControllerState) (i : TickInput)
    (hd : s.portsConfigsDone = false) (ht : 2000 < sub32 i.now s.lastAttemptTime)
    (hr : i.ready = true) (he : i.status 1 = ESP_OK) :
    tick s i =
      ({ portsConfigsDone := true, lastAttemptTime := i.now },
        [Event.log Diag.deviceConnected,
         Event.submit { req := powerReq 1, result := i.status 1 },
         Event.log Diag.port1Sent,
         submitGenericControl i.status 2,
         submitGenericControl i.status 3,
         submitGenericControl i.status 4]) := by
  simp [tick, loop, hd, ht, hr, he]

/-- The outcomes of a tick taken with the flag still false, seen through its
control transfers. -/
theorem tick_cases (s : ControllerState) (i : TickInput) (hd : s.portsConfigsDone = false) :
    (submissions (tick s i).2 = [] ∧ (tick s i).1.portsConfigsDone = false) ∨
    (submissions (tick s i).2 = [{ req := powerReq 1, result := i.status 1 }] ∧
      i.status 1 ≠ ESP_OK ∧ i.ready = true ∧ attempts s i = true ∧
      (tick s i).1.portsConfigsDone = false) ∨
    (submissions (tick s i).2 =
        [{ req := powerReq 1, result := ESP_OK }, { req := powerReq 2, result := i.status 2 },
         { req := powerReq 3, result := i.status 3 }, { req := powerReq 4, result := i.status 4 }] ∧
      i.status 1 = ESP_OK ∧ i.ready = true ∧ attempts s i = true ∧
      (tick s i).1.portsConfigsDone = true) := by
  by_cases ht : 2000 < sub32 i.now s.lastAttemptTime
  · cases hr : i.ready
    · left
      rw [tick_not_ready s i hd ht hr]
      refine ⟨?_, hd⟩
      split <;> simp [submissions]
    · by_cases he : i.status 1 = ESP_OK
      · right; right
        rw [tick_success s i hd ht hr he]
        simp [submissions, submitGenericControl, he, attempts, throttleOpen, hd, ht]
      · right; left
        rw [tick_fail s i hd ht hr he]
        simp [submissions, he, attempts, throttleOpen, hd, ht]
  · left
    rw [tick_throttled s i (by omega)]
    exact ⟨rfl, hd⟩

/-- A tick either keeps `lastAttemptTime` or sets it to the clock reading. -/
theorem tick_last (s : ControllerState) (i : TickInput) :
    (attempts s i = false ∧ tick s i = (s, [])) ∨
    (attempts s i = true ∧ (tick s i).1.lastAttemptTime = i.now) := by
  cases hd : s.portsConfigsDone
  · by_cases ht : 2000 < sub32 i.now s.lastAttemptTime
    · right
      refine ⟨by simp [attempts, throttleOpen, hd, ht], ?_⟩
      cases hr : i.ready
      · rw [tick_not_ready s i hd ht hr]
      · by_cases he : i.status 1 = ESP_OK
        · rw [tick_success s i hd ht hr he]
        · rw [tick_fail s i hd ht hr he]
    · left
      exact ⟨by simp [attempts, throttleOpen, hd, ht], tick_throttled s i (by omega)⟩
  · left
    exact ⟨by simp [attempts, hd], tick_done s i hd⟩

/-! ## Sequences of ticks -/

theorem submissions_append (a b : List Event) :
    submissions (a ++ b) = submissions a ++ submissions b := by
  induction a with
  | nil => rfl
  | cons e es ih => cases e <;> simp [submissions, ih]

theorem runTicks_done (is : List TickInput) (s : ControllerState)
    (h : s.portsConfigsDone = true) : runTicks s is = (s, []) := by
  induction is with
  | nil => rfl
  | cons i rest ih => simp [runTicks, tick_done s i h, ih]

theorem runTicks_append (a b : List TickInput) (s : ControllerState) :
    runTicks s (a ++ b) =
      ((runTicks (runTicks s a).1 b).1, (runTicks s a).2 ++ (runTicks (runTicks s a).1 b).2) := by
  induction a generalizing s with
  | nil => simp [runTicks]
  | cons i rest ih => simp [runTicks, ih, List.append_assoc]

theorem stateAt_zero (s : ControllerState) (is : List TickInput) : stateAt s is 0 = s := by
  simp [stateAt, runTicks]

theorem stateAt_succ (s : ControllerState) (is : List TickInput) (k : Nat) (i : TickInput)
    (h : is[k]? = some i) : stateAt s is (k + 1) = (tick (stateAt s is k) i).1 := by
  simp [stateAt, List.take_succ, h, runTicks_append, runTicks]

theorem stateAt_succ_none (s : ControllerState) (is : List TickInput) (k : Nat)
    (h : is[k]? = none) : stateAt s is (k + 1) = stateAt s is k := by
  simp [stateAt, List.take_succ, h]

theorem tick_requests (s : ControllerState) (i : TickInput) :
    ∀ e ∈ submissions (tick s i).2,
      e.req = powerReq e.req.index ∧ 1 ≤ e.req.index ∧ e.req.index ≤ 4 := by
  cases hd : s.portsConfigsDone
  · rcases tick_cases s i hd with h | h | h
    · simp [h.1]
    · simp [h.1, powerReq]
    · simp [h.1, powerReq]
  · simp [tick_done s i hd, submissions]

/-- The control transfers of a run started with the flag false: failed port-1
submissions, then possibly one successful port-1 submission followed by ports
2, 3 and 4, after which the flag is set. -/
theorem runTicks_shape (is : List TickInput) :
    ∀ s : ControllerState, s.portsConfigsDone = false →
      ∃ fails : List Submission,
        (∀ e ∈ fails, e.req = powerReq 1 ∧ e.result ≠ ESP_OK) ∧
        ((submissions (runTicks s is).2 = fails ∧ (runTicks s is).1.portsConfigsDone = false) ∨
         (∃ r2 r3 r4 : Int, submissions (runTicks s is).2 =
            fails ++ [{ req := powerReq 1, result := ESP_OK }, { req := powerReq 2, result := r2 },
              { req := powerReq 3, result := r3 }, { req := powerReq 4, result := r4 }] ∧
            (runTicks s is).1.portsConfigsDone = true)) := by
  induction is with
  | nil =>
    intro s hd
    exact ⟨[], by simp, Or.inl ⟨rfl, hd⟩⟩
  | cons i rest ih =>
    intro s hd
    simp only [runTicks, submissions_append]
    rcases tick_cases s i hd with h | h | h
    · obtain ⟨fails, hf, hcase⟩ := ih _ h.2
      exact ⟨fails, hf, by simpa [h.1] using hcase⟩
    · obtain ⟨fails, hf, hcase⟩ := ih _ h.2.2.2.2
      refine ⟨{ req := powerReq 1, result := i.status 1 } :: fails, ?_, ?_⟩
      · intro e he
        rcases List.mem_cons.mp he with rfl | he
        · exact ⟨rfl, h.2.1⟩
        · exact hf e he
      · rw [h.1]
        simpa using hcase
    · refine ⟨[], by simp, Or.inr ⟨i.status 2, i.status 3, i.status 4, ?_⟩⟩
      rw [runTicks_done rest _ h.2.2.2.2, h.1]
      simp [submissions, h.2.2.2.2]

theorem runTicks_requests (is : List TickInput) :
    ∀ s : ControllerState, ∀ e ∈ submissions (runTicks s is).2,
      e.req = powerReq e.req.index ∧ 1 ≤ e.req.index ∧ e.req.index ≤ 4 := by
  induction is with
  | nil => intro s e he; simp [runTicks, submissions] at he
  | cons i rest ih =>
    intro s e he
    simp only [runTicks, submissions_append, List.mem_append] at he
    rcases he with he | he
    · exact tick_requests s i e he
    · exact ih _ e he

theorem stateAt_done_succ (s : ControllerState) (is : List TickInput) (k : Nat)
    (h : (stateAt s is k).portsConfigsDone = true) :
    (stateAt s is (k + 1)).portsConfigsDone = true := by
  cases hk : is[k]? with
  | none => rw [stateAt_succ_none s is k hk]; exact h
  | some i => rw [stateAt_succ s is k i hk, tick_done _ i h]; exact h

theorem stateAt_done_mono (s : ControllerState) (is : List TickInput) (j k : Nat)
    (hjk : j ≤ k) (h : (stateAt s is j).portsConfigsDone = true) :
    (stateAt s is k).portsConfigsDone = true := by
  induction k with
  | zero =>
    have : j = 0 := by omega
    subst this
    exact h
  | succ n ih =>
    by_cases hj : j = n + 1
    · subst hj; exact h
    · exact stateAt_done_succ s is n (ih (by omega))

theorem runTicks_not_ready (is : List TickInput) :
    ∀ s : ControllerState, s.portsConfigsDone = false → (∀ i ∈ is, i.ready = false) →
      submissions (runTicks s is).2 = [] ∧ (runTicks s is).1.portsConfigsDone = false := by
  induction is with
  | nil => intro s hd _; exact ⟨rfl, hd⟩
  | cons i rest ih =>
    intro s hd hr
    have hri : i.ready = false := hr i (List.mem_cons_self _ _)
    simp only [runTicks, submissions_append]
    rcases tick_cases s i hd with h | h | h
    · have := ih _ h.2 (fun x hx => hr x (List.mem_cons_of_mem _ hx))
      simpa [h.1] using this
    · rw [hri] at h; simp at h
    · rw [hri] at h; simp at h

theorem runTicks_always_failing (is : List TickInput) :
    ∀ s : ControllerState, s.portsConfigsDone = false →
      (∀ i ∈ is, i.ready = true) → (∀ i ∈ is, i.status 1 ≠ ESP_OK) →
      (submissions (runTicks s is).2).length = throttlePasses s is ∧
      (∀ e ∈ submissions (runTicks s is).2, e.req = powerReq 1 ∧ e.result ≠ ESP_OK) ∧
      (runTicks s is).1.portsConfigsDone = false := by
  induction is with
  | nil => intro s hd _ _; exact ⟨rfl, by simp [runTicks, submissions], hd⟩
  | cons i rest ih =>
    intro s hd hr hf
    have hri : i.ready = true := hr i (List.mem_cons_self _ _)
    have hfi : i.status 1 ≠ ESP_OK := hf i (List.mem_cons_self _ _)
    have hr2 : ∀ x ∈ rest, x.ready = true := fun x hx => hr x (List.mem_cons_of_mem _ hx)
    have hf2 : ∀ x ∈ rest, x.status 1 ≠ ESP_OK := fun x hx => hf x (List.mem_cons_of_mem _ hx)
    simp only [runTicks, submissions_append, throttlePasses]
    by_cases ht : 2000 < sub32 i.now s.lastAttemptTime
    · have hto : throttleOpen s i = true := by simp [throttleOpen, ht]
      rw [tick_fail s i hd ht hri hfi, hto]
      obtain ⟨h1, h2, h3⟩ := ih { s with lastAttemptTime := i.now } hd hr2 hf2
      refine ⟨?_, ?_, h3⟩
      · simp [submissions, h1]; omega
      · intro e he
        simp only [submissions, List.cons_append, List.nil_append, List.mem_cons] at he
        rcases he with rfl | he
        · exact ⟨rfl, hfi⟩
        · exact h2 e he
    · have hto : throttleOpen s i = false := by simp [throttleOpen, ht]
      rw [tick_throttled s i (by omega), hto]
      obtain ⟨h1, h2, h3⟩ := ih s hd hr2 hf2
      exact ⟨by simp [submissions, h1], by simpa [submissions] using h2, h3⟩

theorem sub32_of_le (a b : Nat) (hab : b ≤ a) (ha : a < WORD) : sub32 a b = a - b := by
  unfold sub32 WORD at *
  omega

/-- After an attempt at tick `j`, the timestamp held before any later tick `m`
is the clock reading of some tick between `j` and `m`. -/
theorem stateAt_last_after_attempt (s : ControllerState) (is : List TickInput) (j : Nat)
    (ij : TickInput) (hj : is[j]? = some ij) (ha : attempts (stateAt s is j) ij = true) :
    ∀ m, j < m → m ≤ is.length →
      ∃ a x, j ≤ a ∧ a < m ∧ is[a]? = some x ∧ (stateAt s is m).lastAttemptTime = x.now := by
  intro m
  induction m with
  | zero => intro h; omega
  | succ n ih =>
    intro hjn hn
    by_cases hjeq : j = n
    · subst hjeq
      refine ⟨j, ij, Nat.le_refl _, Nat.lt_succ_self _, hj, ?_⟩
      rw [stateAt_succ s is j ij hj]
      rcases tick_last (stateAt s is j) ij with h | h
      · rw [h.1] at ha; cases ha
      · exact h.2
    · obtain ⟨a, x, hja, han, hax, hlast⟩ := ih (by omega) (by omega)
      have hnlt : n < is.length := by omega
      have hn_some : is[n]? = some is[n] := List.getElem?_eq_getElem hnlt
      rw [stateAt_succ s is n is[n] hn_some]
      rcases tick_last (stateAt s is n) is[n] with h | h
      · rw [h.2]
        exact ⟨a, x, hja, by omega, hax, hlast⟩
      · exact ⟨n, is[n], by omega, Nat.lt_succ_self _, hn_some, h.2⟩

theorem eventsAt_submission_attempts (s : ControllerState) (is : List TickInput) (k : Nat)
    (i : TickInput) (hk : is[k]? = some i)
    (h : ∃ e ∈ submissions (eventsAt s is k), e.req.index = 1) :
    attempts (stateAt s is k) i = true := by
  obtain ⟨e, he, _⟩ := h
  simp only [eventsAt, hk] at he
  rcases tick_last (stateAt s is k) i with h | h
  · rw [h.2] at he
    simp [submissions] at he
  · exact h.1

/-- With non-decreasing clock readings below 2^32, an attempt at tick `j` and
an attempt at a later tick `k` are more than 2000 ms apart. -/
theorem attempts_spaced (s : ControllerState) (is : List TickInput)
    (hmono : is.Pairwise (fun x y => x.now ≤ y.now)) (hwrap : ∀ i ∈ is, i.now < WORD)
    (j k : Nat) (ij ik : TickInput) (hjk : j < k)
    (hj : is[j]? = some ij) (hk : is[k]? = some ik)
    (haj : attempts (stateAt s is j) ij = true) (hak : attempts (stateAt s is k) ik = true) :
    ij.now + 2000 < ik.now := by
  have hle : ∀ (a b : Nat) (x y : TickInput), a ≤ b → is[a]? = some x → is[b]? = some y →
      x.now ≤ y.now := by
    intro a b x y hab hx hy
    obtain ⟨ha, rfl⟩ := List.getElem?_eq_some.mp hx
    obtain ⟨hb, rfl⟩ := List.getElem?_eq_some.mp hy
    rcases Nat.lt_or_eq_of_le hab with hlt | heq
    · exact List.pairwise_iff_getElem.mp hmono a b ha hb hlt
    · subst heq; exact Nat.le_refl _
  have hklt : k < is.length := (List.getElem?_eq_some.mp hk).1
  obtain ⟨a, x, hja, hak2, hax, hlast⟩ :=
    stateAt_last_after_attempt s is j ij hj haj k hjk (by omega)
  have h1 : ij.now ≤ x.now := hle j a ij x hja hj hax
  have h2 : x.now ≤ ik.now := hle a k x ik (by omega) hax hk
  have h3 : ik.now < WORD := hwrap ik (List.getElem?_mem hk)
  have h4 : 2000 < sub32 ik.now (stateAt s is k).lastAttemptTime := by
    have h5 := hak
    simp only [attempts, throttleOpen, Bool.and_eq_true, decide_eq_true_eq] at h5
    exact h5.2
  rw [hlast, sub32_of_le ik.now x.now h2 h3] at h4
  omega

/-- Within one tick, from any state, a submission for port 2, 3 or 4 comes
after a port-1 submission of the same tick that returned success. -/
theorem tick_secondary_after_ok (s : ControllerState) (i : TickInput) (n : Nat) (e : Submission)
    (hn : (submissions (tick s i).2)[n]? = some e)
    (hp : e.req.index = 2 ∨ e.req.index = 3 ∨ e.req.index = 4) :
    ∃ m e1, m < n ∧ (submissions (tick s i).2)[m]? = some e1 ∧
      e1.req.index = 1 ∧ e1.result = ESP_OK := by
  cases hd : s.portsConfigsDone
  · rcases tick_cases s i hd with h | h | h
    · rw [h.1] at hn; simp at hn
    · rw [h.1] at hn
      have hmem := List.getElem?_mem hn
      simp only [List.mem_singleton] at hmem
      rw [hmem] at hp
      simp [powerReq] at hp
    · rw [h.1] at hn ⊢
      have hn0 : n ≠ 0 := by
        intro h0
        rw [h0] at hn
        simp at hn
        rw [← hn] at hp
        simp [powerReq] at hp
      exact ⟨0, { req := powerReq 1, result := ESP_OK }, by omega, by simp, rfl, rfl⟩
  · rw [tick_done s i hd] at hn
    simp [submissions] at hn

/-- When a tick prints the waiting line. -/
theorem tick_waiting_iff (s : ControllerState) (i : TickInput) :
    Diag.waiting ∈ diagnostics (tick s i).2 ↔
      (attempts s i = true ∧ i.ready = false ∧ i.now % 4000 < 100) := by
  cases hd : s.portsConfigsDone
  · by_cases ht : 2000 < sub32 i.now s.lastAttemptTime
    · cases hr : i.ready
      · rw [tick_not_ready s i hd ht hr]
        by_cases hm : i.now % 4000 < 100
        · simp [hm, diagnostics, attempts, throttleOpen, hd, ht]
        · simp [hm, diagnostics]
      · by_cases he : i.status 1 = ESP_OK
        · rw [tick_success s i hd ht hr he]
          simp [diagnostics, submitGenericControl]
        · rw [tick_fail s i hd ht hr he]
          simp [diagnostics]
    · rw [tick_throttled s i (by omega)]
      simp [diagnostics, attempts, throttleOpen, hd, ht]
  · rw [tick_done s i hd]
    simp [diagnostics, attempts, hd]

theorem tick_waiting_count (s : ControllerState) (i : TickInput) :
    (diagnostics (tick s i).2).count Diag.waiting ≤ 1 := by
  cases hd : s.portsConfigsDone
  · by_cases ht : 2000 < sub32 i.now s.lastAttemptTime
    · cases hr : i.ready
      · rw [tick_not_ready s i hd ht hr]
        split <;> simp [diagnostics]
      · by_cases he : i.status 1 = ESP_OK
        · rw [tick_success s i hd ht hr he]
          simp [diagnostics, submitGenericControl]
        · rw [tick_fail s i hd ht hr he]
          simp [diagnostics]
    · rw [tick_throttled s i (by omega)]
      simp [diagnostics]
  · rw [tick_done s i hd]
    simp [diagnostics]

theorem tick_init_early (i : TickInput) (h : i.now ≤ 2000) :
    tick initState i = (initState, []) := by
  apply tick_throttled
  simp only [sub32, WORD, initState]
  omega

theorem attempts_init_late (i : TickInput) (h : attempts initState i = true) :
    2000 < i.now := by
  simp only [attempts, throttleOpen, Bool.and_eq_true, decide_eq_true_eq, sub32, WORD,
    initState] at h
  omega

/-- Before the first attempt of a sequence the state is the starting state. -/
theorem stateAt_of_no_attempt (s : ControllerState) (is : List TickInput) (k : Nat)
    (h : ∀ (j : Nat) (ij : TickInput), j < k → is[j]? = some ij →
      attempts (stateAt s is j) ij = false) :
    stateAt s is k = s := by
  induction k with
  | zero => exact stateAt_zero s is
  | succ n ih =>
    have ihn := ih (fun j ij hj hij => h j ij (by omega) hij)
    cases hn : is[n]? with
    | none => rw [stateAt_succ_none s is n hn]; exact ihn
    | some i =>
      rw [stateAt_succ s is n i hn]
      rcases tick_last (stateAt s is n) i with ht | ht
      · rw [ht.2]; exact ihn
      · rw [h n i (Nat.lt_succ_self _) hn] at ht
        cases ht.1

theorem readByte_isSome (p : List Nat) (n : Nat) :
    (readByte p n).isSome = true ↔ n < p.length := by
  unfold readByte
  constructor
  · intro h
    obtain ⟨v, hv⟩ := Option.isSome_iff_exists.mp h
    exact (List.getElem?_eq_some.mp hv).1
  · intro h
    rw [List.getElem?_eq_getElem h]
    rfl

theorem sub32_add_mod (l d : Nat) (hd : d < WORD) : sub32 ((l + d) % WORD) l = d := by
  unfold sub32 WORD at *
  omega

/-! ## The transition rule of one tick -/

/-- C1, as stated, fails at an elapsed time of exactly 2000 ms: from the initial
state (flag false, timestamp 0) a tick at clock reading 2000 has an elapsed time
that is not below 2000, yet it leaves the timestamp at 0 and has no effect at
all, although the host is ready and the submission would succeed. -/
theorem tick_at_exactly_2000_is_noop :
    initState.portsConfigsDone = false ∧
    ¬ (sub32 2000 initState.lastAttemptTime < 2000) ∧
    tick initState { now := 2000, ready := true, status := fun _ => ESP_OK } = (initState, []) ∧
    (tick initState { now := 2000, ready := true, status := fun _ => ESP_OK }).1.lastAttemptTime
      ≠ 2000 := by
  decide

/-- C1 (amended): for every controller state and tick input, with the elapsed
time taken as the unsigned 32-bit difference of `now` and `lastAttemptTime`: if
the flag is set the tick does nothing; else if the elapsed time is at most
2000 ms (exactly 2000 included) the tick does nothing; otherwise (more than
2000 ms) the tick sets `lastAttemptTime` to `now` and branches on readiness,
whatever the readiness and the submission outcome: when ready the trace starts
with the connection line and the port-1 submission, when not ready there is no
submission and the flag stays false. -/
theorem tick_transition_rule (s : ControllerState) (i : TickInput) :
    (s.portsConfigsDone = true → tick s i = (s, [])) ∧
    (s.portsConfigsDone = false → sub32 i.now s.lastAttemptTime ≤ 2000 → tick s i = (s, [])) ∧
    (s.portsConfigsDone = false → 2000 < sub32 i.now s.lastAttemptTime →
      (tick s i).1.lastAttemptTime = i.now ∧
      (i.ready = true → ∃ rest, (tick s i).2 =
        Event.log Diag.deviceConnected ::
          Event.submit { req := powerReq 1, result := i.status 1 } :: rest) ∧
      (i.ready = false →
        submissions (tick s i).2 = [] ∧ (tick s i).1.portsConfigsDone = false)) := by
  refine ⟨tick_done s i, fun _ ht => tick_throttled s i ht, fun hd ht => ?_⟩
  cases hr : i.ready
  · rw [tick_not_ready s i hd ht hr]
    refine ⟨rfl, by simp, fun _ => ⟨?_, hd⟩⟩
    split <;> simp [submissions]
  · by_cases he : i.status 1 = ESP_OK
    · rw [tick_success s i hd ht hr he]
      exact ⟨rfl, fun _ => ⟨_, rfl⟩, by simp⟩
    · rw [tick_fail s i hd ht hr he]
      exact ⟨rfl, fun _ => ⟨_, rfl⟩, by simp⟩

/-- Witness of C1 (amended): a done state, a throttled tick at exactly 2000 ms
and an attempting tick at 2001 ms. -/
theorem tick_transition_rule_witness :
    tick { portsConfigsDone := true, lastAttemptTime := 7 }
        { now := 5000, ready := true, status := fun _ => ESP_OK } =
      ({ portsConfigsDone := true, lastAttemptTime := 7 }, []) ∧
    tick initState { now := 2000, ready := true, status := fun _ => ESP_OK } = (initState, []) ∧
    (tick initState { now := 2001, ready := false, status := fun _ => ESP_OK }).1.lastAttemptTime
      = 2001 :=
  ⟨(tick_transition_rule { portsConfigsDone := true, lastAttemptTime := 7 }
      { now := 5000, ready := true, status := fun _ => ESP_OK }).1 rfl,
   (tick_transition_rule initState
      { now := 2000, ready := true, status := fun _ => ESP_OK }).2.1 rfl (by decide),
   ((tick_transition_rule initState
      { now := 2001, ready := false, status := fun _ => ESP_OK }).2.2 rfl (by decide)).1⟩

/-- C2: for every state with the flag false and every tick that passes the retry
throttle, if the host is ready and the port-1 submission returns success, the
tick makes exactly four submissions, for ports 1, 2, 3, 4 in that order, and
the flag is true after the tick. -/
theorem tick_success_fans_out (s : ControllerState) (i : TickInput)
    (hd : s.portsConfigsDone = false) (ht : throttleOpen s i = true)
    (hr : i.ready = true) (he : i.status 1 = ESP_OK) :
    submissions (tick s i).2 =
      [{ req := powerReq 1, result := ESP_OK }, { req := powerReq 2, result := i.status 2 },
       { req := powerReq 3, result := i.status 3 }, { req := powerReq 4, result := i.status 4 }] ∧
    (submissions (tick s i).2).length = 4 ∧
    (submissions (tick s i).2).map (fun e => e.req.index) = [1, 2, 3, 4] ∧
    (tick s i).1.portsConfigsDone = true := by
  have ht2 : 2000 < sub32 i.now s.lastAttemptTime := by simpa [throttleOpen] using ht
  rw [tick_success s i hd ht2 hr he]
  simp [submissions, submitGenericControl, he, powerReq]

/-- Witness of C2: the first ready tick at 2500 ms from the initial state. -/
theorem tick_success_fans_out_witness :
    (submissions (tick initState { now := 2500, ready := true, status := fun _ => ESP_OK }).2).map
        (fun e => e.req.index) = [1, 2, 3, 4] ∧
    (tick initState { now := 2500, ready := true, status := fun _ => ESP_OK }).1.portsConfigsDone
      = true :=
  ⟨(tick_success_fans_out initState { now := 2500, ready := true, status := fun _ => ESP_OK }
      rfl (by decide) rfl rfl).2.2.1,
   (tick_success_fans_out initState { now := 2500, ready := true, status := fun _ => ESP_OK }
      rfl (by decide) rfl rfl).2.2.2⟩

/-! ## Ordering of the submissions -/

/-- C3: in the submission trace of every sequence of ticks from the initial
state, every submission for port 2, 3 or 4 is preceded by a port-1 submission
that returned the success status. -/
theorem secondary_ports_after_port1_success (is : List TickInput) (k : Nat) (e : Submission)
    (hk : (submissions (runTicks initState is).2)[k]? = some e)
    (hp : e.req.index = 2 ∨ e.req.index = 3 ∨ e.req.index = 4) :
    ∃ j e1, j < k ∧ (submissions (runTicks initState is).2)[j]? = some e1 ∧
      e1.req.index = 1 ∧ e1.result = ESP_OK := by
  obtain ⟨fails, hf, hcase⟩ := runTicks_shape is initState rfl
  have hnot : ∀ x ∈ fails, x ≠ e := by
    intro x hx hxe
    have h1 := (hf x hx).1
    rw [hxe] at h1
    rw [h1] at hp
    simp [powerReq] at hp
  rcases hcase with ⟨hs, _⟩ | ⟨r2, r3, r4, hs, _⟩
  · rw [hs] at hk
    exact absurd rfl (hnot e (List.getElem?_mem hk))
  · rw [hs] at hk ⊢
    by_cases hlt : k < fails.length
    · rw [List.getElem?_append_left hlt] at hk
      exact absurd rfl (hnot e (List.getElem?_mem hk))
    · have hne : k ≠ fails.length := by
        intro hkeq
        rw [hkeq, List.getElem?_append_right (Nat.le_refl _)] at hk
        simp at hk
        rw [← hk] at hp
        simp [powerReq] at hp
      refine ⟨fails.length, { req := powerReq 1, result := ESP_OK }, by omega, ?_, rfl, rfl⟩
      rw [List.getElem?_append_right (Nat.le_refl _)]
      simp

/-- Witness of C3: one successful tick at 3000 ms; the port-2 submission is at
position 1 of the trace. -/
theorem secondary_ports_after_port1_success_witness :
    ∃ j e1, j < 1 ∧
      (submissions (runTicks initState
        [{ now := 3000, ready := true, status := fun _ => ESP_OK }]).2)[j]? = some e1 ∧
      e1.req.index = 1 ∧ e1.result = ESP_OK :=
  secondary_ports_after_port1_success
    [{ now := 3000, ready := true, status := fun _ => ESP_OK }] 1
    { req := powerReq 2, result := ESP_OK } (by decide) (by decide)

/-- C4: along every sequence of ticks from the initial state the flag
`portsConfigsDone`, once true, is true at every later point; at most one tick
changes it from false to true; and a tick that changes it from false to true
made a port-1 submission that returned the success status. -/
theorem portsConfigsDone_set_once (is : List TickInput) :
    (∀ j k, j ≤ k → (stateAt initState is j).portsConfigsDone = true →
      (stateAt initState is k).portsConfigsDone = true) ∧
    (∀ j k, (stateAt initState is j).portsConfigsDone = false →
      (stateAt initState is (j + 1)).portsConfigsDone = true →
      (stateAt initState is k).portsConfigsDone = false →
      (stateAt initState is (k + 1)).portsConfigsDone = true → j = k) ∧
    (∀ k, (stateAt initState is k).portsConfigsDone = false →
      (stateAt initState is (k + 1)).portsConfigsDone = true →
      ∃ e ∈ submissions (eventsAt initState is k), e.req.index = 1 ∧ e.result = ESP_OK) := by
  refine ⟨fun j k hjk h => stateAt_done_mono initState is j k hjk h, ?_, ?_⟩
  · intro j k hj0 hj1 hk0 hk1
    rcases Nat.lt_trichotomy j k with hlt | heq | hgt
    · have := stateAt_done_mono initState is (j + 1) k (by omega) hj1
      rw [hk0] at this
      cases this
    · exact heq
    · have := stateAt_done_mono initState is (k + 1) j (by omega) hk1
      rw [hj0] at this
      cases this
  · intro k h0 h1
    cases hk : is[k]? with
    | none =>
      rw [stateAt_succ_none initState is k hk, h0] at h1
      cases h1
    | some i =>
      rw [stateAt_succ initState is k i hk] at h1
      simp only [eventsAt, hk]
      rcases tick_cases (stateAt initState is k) i h0 with h | h | h
      · rw [h.2] at h1; cases h1
      · rw [h.2.2.2.2] at h1; cases h1
      · rw [h.1]
        exact ⟨{ req := powerReq 1, result := ESP_OK }, by simp, rfl, rfl⟩

/-- Witness of C4: a failed attempt followed by a successful one and a later
tick; the flag is set by tick 1 and still set after tick 2. -/
theorem portsConfigsDone_set_once_witness :
    (stateAt initState
      [{ now := 2500, ready := true, status := fun _ => 1 },
       { now := 5000, ready := true, status := fun _ => ESP_OK },
       { now := 9000, ready := true, status := fun _ => ESP_OK }] 3).portsConfigsDone = true :=
  (portsConfigsDone_set_once
      [{ now := 2500, ready := true, status := fun _ => 1 },
       { now := 5000, ready := true, status := fun _ => ESP_OK },
       { now := 9000, ready := true, status := fun _ => ESP_OK }]).1 2 3 (by decide) (by decide)

/-- C5: if the host is not ready at any tick of a sequence started in the
initial state, no submission is made and `portsConfigsDone` is false after
every tick. -/
theorem never_ready_never_submits (is : List TickInput) (h : ∀ i ∈ is, i.ready = false) :
    submissions (runTicks initState is).2 = [] ∧
    ∀ k, (stateAt initState is k).portsConfigsDone = false := by
  refine ⟨(runTicks_not_ready is initState rfl h).1, fun k => ?_⟩
  exact (runTicks_not_ready (is.take k) initState rfl
    (fun i hi => h i (List.mem_of_mem_take hi))).2

/-- Witness of C5: three ticks without a device, the first two past the
throttle. -/
theorem never_ready_never_submits_witness :
    submissions (runTicks initState
      [{ now := 2500, ready := false, status := fun _ => ESP_OK },
       { now := 8050, ready := false, status := fun _ => ESP_OK },
       { now := 8060, ready := false, status := fun _ => ESP_OK }]).2 = [] ∧
    ∀ k, (stateAt initState
      [{ now := 2500, ready := false, status := fun _ => ESP_OK },
       { now := 8050, ready := false, status := fun _ => ESP_OK },
       { now := 8060, ready := false, status := fun _ => ESP_OK }] k).portsConfigsDone = false :=
  never_ready_never_submits
    [{ now := 2500, ready := false, status := fun _ => ESP_OK },
     { now := 8050, ready := false, status := fun _ => ESP_OK },
     { now := 8060, ready := false, status := fun _ => ESP_OK }] (by simp)

/-- C6: along every sequence of ticks from the initial state in which the host
is ready at every tick and the port-1 submission always returns a failure
status, the number of submissions is the number of ticks that pass the retry
throttle, every submission is the port-1 request, and `portsConfigsDone` is
false after every tick. -/
theorem always_failing_retries_port1 (is : List TickInput)
    (hr : ∀ i ∈ is, i.ready = true) (hf : ∀ i ∈ is, i.status 1 ≠ ESP_OK) :
    (submissions (runTicks initState is).2).length = throttlePasses initState is ∧
    (∀ e ∈ submissions (runTicks initState is).2, e.req = powerReq 1) ∧
    ∀ k, (stateAt initState is k).portsConfigsDone = false := by
  obtain ⟨h1, h2, _⟩ := runTicks_always_failing is initState rfl hr hf
  refine ⟨h1, fun e he => (h2 e he).1, fun k => ?_⟩
  exact (runTicks_always_failing (is.take k) initState rfl
    (fun i hi => hr i (List.mem_of_mem_take hi))
    (fun i hi => hf i (List.mem_of_mem_take hi))).2.2

/-- Witness of C6: four ticks with a failing port 1, three of them past the
throttle: three submissions. -/
theorem always_failing_retries_port1_witness :
    (submissions (runTicks initState
      [{ now := 2500, ready := true, status := fun _ => 259 },
       { now := 3000, ready := true, status := fun _ => 259 },
       { now := 5000, ready := true, status := fun _ => -1 },
       { now := 7500, ready := true, status := fun _ => 259 }]).2).length = 3 :=
  (always_failing_retries_port1
      [{ now := 2500, ready := true, status := fun _ => 259 },
       { now := 3000, ready := true, status := fun _ => 259 },
       { now := 5000, ready := true, status := fun _ => -1 },
       { now := 7500, ready := true, status := fun _ => 259 }]
      (by simp) (by simp [ESP_OK])).1

/-- C7: along every sequence of ticks from the initial state whose clock
readings are non-decreasing and below 2^32 (no wraparound), two distinct ticks
that both perform an attempt, and hence two ticks that both submit for port 1,
have clock readings at least 2000 ms apart. -/
theorem attempts_2000_apart (is : List TickInput)
    (hmono : is.Pairwise (fun x y => x.now ≤ y.now)) (hwrap : ∀ i ∈ is, i.now < WORD)
    (j k : Nat) (ij ik : TickInput) (hjk : j < k)
    (hj : is[j]? = some ij) (hk : is[k]? = some ik) :
    (attempts (stateAt initState is j) ij = true →
      attempts (stateAt initState is k) ik = true → ij.now + 2000 ≤ ik.now) ∧
    ((∃ e ∈ submissions (eventsAt initState is j), e.req.index = 1) →
      (∃ e ∈ submissions (eventsAt initState is k), e.req.index = 1) →
      ij.now + 2000 ≤ ik.now) := by
  have main : attempts (stateAt initState is j) ij = true →
      attempts (stateAt initState is k) ik = true → ij.now + 2000 ≤ ik.now :=
    fun haj hak =>
      Nat.le_of_lt (attempts_spaced initState is hmono hwrap j k ij ik hjk hj hk haj hak)
  exact ⟨main, fun hsj hsk => main (eventsAt_submission_attempts initState is j ij hj hsj)
    (eventsAt_submission_attempts initState is k ik hk hsk)⟩

/-- Witness of C7: failing attempts at 2500 and 5000 ms (ticks 0 and 2) with a
throttled tick at 3000 ms in between. -/
theorem attempts_2000_apart_witness :
    attempts (stateAt initState
      [{ now := 2500, ready := true, status := fun _ => 259 },
       { now := 3000, ready := true, status := fun _ => 259 },
       { now := 5000, ready := true, status := fun _ => 259 }] 0)
      { now := 2500, ready := true, status := fun _ => 259 } = true ∧
    attempts (stateAt initState
      [{ now := 2500, ready := true, status := fun _ => 259 },
       { now := 3000, ready := true, status := fun _ => 259 },
       { now := 5000, ready := true, status := fun _ => 259 }] 2)
      { now := 5000, ready := true, status := fun _ => 259 } = true ∧
    (2500 : Nat) + 2000 ≤ 5000 :=
  ⟨by decide, by decide,
   (attempts_2000_apart
      [{ now := 2500, ready := true, status := fun _ => 259 },
       { now := 3000, ready := true, status := fun _ => 259 },
       { now := 5000, ready := true, status := fun _ => 259 }]
      (by simp) (by simp [WORD]) 0 2
      { now := 2500, ready := true, status := fun _ => 259 }
      { now := 5000, ready := true, status := fun _ => 259 }
      (by decide) rfl rfl).1 (by decide) (by decide)⟩

/-! ## Idempotence once done -/

/-- C8: in a state with `portsConfigsDone` true, a tick with any input makes no
submission (it has no effect at all) and returns the state unchanged, and so
does any sequence of ticks. -/
theorem done_is_idempotent (s : ControllerState) (h : s.portsConfigsDone = true) :
    (∀ i : TickInput, submissions (tick s i).2 = [] ∧ tick s i = (s, [])) ∧
    (∀ is : List TickInput, runTicks s is = (s, [])) :=
  ⟨fun i => ⟨by rw [tick_done s i h]; rfl, tick_done s i h⟩, fun is => runTicks_done is s h⟩

/-- Witness of C8: a done state with timestamp 2600, ticked twice. -/
theorem done_is_idempotent_witness :
    runTicks { portsConfigsDone := true, lastAttemptTime := 2600 }
      [{ now := 9000, ready := true, status := fun _ => ESP_OK },
       { now := 12000, ready := false, status := fun _ => 259 }] =
      ({ portsConfigsDone := true, lastAttemptTime := 2600 }, []) :=
  (done_is_idempotent { portsConfigsDone := true, lastAttemptTime := 2600 } rfl).2
    [{ now := 9000, ready := true, status := fun _ => ESP_OK },
     { now := 12000, ready := false, status := fun _ => 259 }]

/-! ## The classifier signals -/

/-- C9: for an interface descriptor whose class, subclass and protocol bytes
(offsets 5, 6, 7) are `cls`, `sub`, `proto`, the callback returns normally; if
`cls` is 0x09 the hub line is printed exactly once and the mass-storage line not
at all; if `cls` is 0x08 the mass-storage line is printed exactly once and the
hub line not at all; for every other class byte neither is printed. -/
theorem onConfig_signals (p : List Nat) (cls sub proto : Nat)
    (h5 : p[5]? = some cls) (h6 : p[6]? = some sub) (h7 : p[7]? = some proto) :
    ∃ out, onConfig USB_INTERFACE_DESC p = some out ∧
      (cls = 0x09 →
        out.count Diag.hubDetected = 1 ∧ out.count Diag.massStorageDetected = 0) ∧
      (cls = 0x08 →
        out.count Diag.massStorageDetected = 1 ∧ out.count Diag.hubDetected = 0) ∧
      (cls ≠ 0x09 → cls ≠ 0x08 →
        out.count Diag.hubDetected = 0 ∧ out.count Diag.massStorageDetected = 0) := by
  have hout : onConfig USB_INTERFACE_DESC p =
      some (Diag.intf cls sub proto ::
        (if cls = 0x09 then [Diag.hubDetected]
         else if cls = 0x08 then [Diag.massStorageDetected]
         else [])) := by
    simp only [onConfig, readByte, h5, h6, h7, if_true]
  refine ⟨_, hout, ?_, ?_, ?_⟩
  · intro h; subst h; simp
  · intro h; subst h; simp
  · intro h9 h8; simp [h9, h8]

/-- Witness of C9: the interface descriptor of a hub (class 9). -/
theorem onConfig_signals_witness :
    ∃ out, onConfig USB_INTERFACE_DESC [9, 4, 0, 0, 1, 9, 0, 0, 0] = some out ∧
      (9 = 0x09 →
        out.count Diag.hubDetected = 1 ∧ out.count Diag.massStorageDetected = 0) ∧
      (9 = 0x08 →
        out.count Diag.massStorageDetected = 1 ∧ out.count Diag.hubDetected = 0) ∧
      (9 ≠ 0x09 → 9 ≠ 0x08 →
        out.count Diag.hubDetected = 0 ∧ out.count Diag.massStorageDetected = 0) :=
  onConfig_signals [9, 4, 0, 0, 1, 9, 0, 0, 0] 9 0 0 rfl rfl rfl

/-! ## The submitted requests -/

/-- C10: in every sequence of ticks, from any state, every submitted control
transfer has request type 0x23, request code 0x03, value 0x0008, length 0 and
an index between 1 and 4, and two submissions with the same index carry the
same request. -/
theorem submitted_requests_fixed (s : ControllerState) (is : List TickInput) :
    (∀ e ∈ submissions (runTicks s is).2,
      e.req.requestType = 0x23 ∧ e.req.request = 0x03 ∧ e.req.value = 0x0008 ∧
      e.req.length = 0 ∧ 1 ≤ e.req.index ∧ e.req.index ≤ 4) ∧
    (∀ e1 ∈ submissions (runTicks s is).2, ∀ e2 ∈ submissions (runTicks s is).2,
      e1.req.index = e2.req.index → e1.req = e2.req) := by
  constructor
  · intro e he
    obtain ⟨h1, h2, h3⟩ := runTicks_requests is s e he
    rw [h1]
    exact ⟨rfl, rfl, rfl, rfl, h2, h3⟩
  · intro e1 he1 e2 he2 hidx
    rw [(runTicks_requests is s e1 he1).1, (runTicks_requests is s e2 he2).1, hidx]

/-! ## The secondary ports -/

/-- C11: along every sequence of ticks from the initial state each of the ports
2, 3 and 4 is submitted at most once, whatever statuses are returned, and a
submission for one of them is in the same tick as, and after, a port-1
submission that returned the success status. -/
theorem secondary_ports_once (is : List TickInput) :
    (∀ p, (p = 2 ∨ p = 3 ∨ p = 4) →
      (submissions (runTicks initState is).2).countP (fun e => decide (e.req.index = p)) ≤ 1) ∧
    (∀ (k n : Nat) (e : Submission), (submissions (eventsAt initState is k))[n]? = some e →
      (e.req.index = 2 ∨ e.req.index = 3 ∨ e.req.index = 4) →
      ∃ (m : Nat) (e1 : Submission),
        m < n ∧ (submissions (eventsAt initState is k))[m]? = some e1 ∧
        e1.req.index = 1 ∧ e1.result = ESP_OK) := by
  constructor
  · intro p hp
    obtain ⟨fails, hf, hcase⟩ := runTicks_shape is initState rfl
    have hzero : fails.countP (fun e => decide (e.req.index = p)) = 0 := by
      rw [List.countP_eq_zero]
      intro e he
      rw [(hf e he).1]
      rcases hp with rfl | rfl | rfl <;> simp [powerReq]
    rcases hcase with ⟨hs, _⟩ | ⟨r2, r3, r4, hs, _⟩
    · rw [hs, hzero]
      exact Nat.zero_le _
    · rw [hs, List.countP_append, hzero]
      rcases hp with rfl | rfl | rfl <;> simp [List.countP_cons, powerReq]
  · intro k n e hn hp
    cases hk : is[k]? with
    | none => simp [eventsAt, hk, submissions] at hn
    | some i =>
      simp only [eventsAt, hk] at hn ⊢
      exact tick_secondary_after_ok _ i n e hn hp

/-- Witness of C11: a failed attempt, a successful one and a later tick; port 3
is submitted once, at position 2 of tick 1, after the successful port-1
submission at position 0. -/
theorem secondary_ports_once_witness :
    (submissions (runTicks initState
      [{ now := 2500, ready := true, status := fun _ => 259 },
       { now := 5000, ready := true, status := fun p => if p = 1 then ESP_OK else 259 },
       { now := 9000, ready := true, status := fun _ => ESP_OK }]).2).countP
        (fun e => decide (e.req.index = 3)) ≤ 1 ∧
    ∃ m e1, m < 2 ∧
      (submissions (eventsAt initState
        [{ now := 2500, ready := true, status := fun _ => 259 },
         { now := 5000, ready := true, status := fun p => if p = 1 then ESP_OK else 259 },
         { now := 9000, ready := true, status := fun _ => ESP_OK }] 1))[m]? = some e1 ∧
      e1.req.index = 1 ∧ e1.result = ESP_OK :=
  ⟨(secondary_ports_once
      [{ now := 2500, ready := true, status := fun _ => 259 },
       { now := 5000, ready := true, status := fun p => if p = 1 then ESP_OK else 259 },
       { now := 9000, ready := true, status := fun _ => ESP_OK }]).1 3 (by decide),
   (secondary_ports_once
      [{ now := 2500, ready := true, status := fun _ => 259 },
       { now := 5000, ready := true, status := fun p => if p = 1 then ESP_OK else 259 },
       { now := 9000, ready := true, status := fun _ => ESP_OK }]).2 1 2
      { req := powerReq 3, result := 259 } (by decide) (by decide)⟩

/-- C12: two runs of a tick from the same state, with the same clock reading,
the same readiness and the same port-1 status, whatever statuses are returned
for ports 2, 3 and 4, end in the same state, submit the same requests in the
same order and print the same lines. -/
theorem secondary_status_unchecked (s : ControllerState) (i1 i2 : TickInput)
    (hnow : i1.now = i2.now) (hready : i1.ready = i2.ready)
    (hport1 : i1.status 1 = i2.status 1) :
    (tick s i1).1 = (tick s i2).1 ∧
    (submissions (tick s i1).2).map (fun e => e.req) =
      (submissions (tick s i2).2).map (fun e => e.req) ∧
    diagnostics (tick s i1).2 = diagnostics (tick s i2).2 := by
  simp only [tick, loop, hnow, hready, hport1]
  split_ifs <;> simp [submissions, diagnostics, submitGenericControl]

/-- Witness of C12: the first successful tick, once with ports 2 to 4 succeeding
and once with all three failing. -/
theorem secondary_status_unchecked_witness :
    (tick initState { now := 2500, ready := true, status := fun _ => ESP_OK }).1 =
      (tick initState
        { now := 2500, ready := true, status := fun p => if p = 1 then ESP_OK else 259 }).1 ∧
    (submissions (tick initState
        { now := 2500, ready := true, status := fun _ => ESP_OK }).2).map (fun e => e.req) =
      (submissions (tick initState
        { now := 2500, ready := true,
          status := fun p => if p = 1 then ESP_OK else 259 }).2).map (fun e => e.req) ∧
    diagnostics (tick initState { now := 2500, ready := true, status := fun _ => ESP_OK }).2 =
      diagnostics (tick initState
        { now := 2500, ready := true, status := fun p => if p = 1 then ESP_OK else 259 }).2 :=
  secondary_status_unchecked initState
    { now := 2500, ready := true, status := fun _ => ESP_OK }
    { now := 2500, ready := true, status := fun p => if p = 1 then ESP_OK else 259 }
    rfl rfl rfl

/-! ## Failure of the port-1 submission -/

/-- C13: for every tick taken with the flag false that passes the throttle with
the host ready and the port-1 submission returning a status `e` other than
success, the tick returns the state with only the timestamp updated, makes
exactly one submission (the port-1 request), prints the raw code `e` in its
failure line and no other failure line, and leaves the flag false; this for
every status `e`. -/
theorem port1_failure_handling (s : ControllerState) (i : TickInput) (e : Int)
    (hd : s.portsConfigsDone = false) (ht : throttleOpen s i = true)
    (hr : i.ready = true) (hs : i.status 1 = e) (he : e ≠ ESP_OK) :
    tick s i =
      ({ portsConfigsDone := false, lastAttemptTime := i.now },
        [Event.log Diag.deviceConnected,
         Event.submit { req := powerReq 1, result := e },
         Event.log (Diag.commandFailed e)]) ∧
    submissions (tick s i).2 = [{ req := powerReq 1, result := e }] ∧
    diagnostics (tick s i).2 = [Diag.deviceConnected, Diag.commandFailed e] ∧
    (tick s i).1.portsConfigsDone = false := by
  have ht2 : 2000 < sub32 i.now s.lastAttemptTime := by simpa [throttleOpen] using ht
  subst hs
  rw [tick_fail s i hd ht2 hr he]
  simp [submissions, diagnostics, hd]

/-- Witness of C13: the first ready tick at 2500 ms with port 1 returning the
status 0x103. -/
theorem port1_failure_handling_witness :
    diagnostics (tick initState { now := 2500, ready := true, status := fun _ => 259 }).2 =
      [Diag.deviceConnected, Diag.commandFailed 259] :=
  (port1_failure_handling initState { now := 2500, ready := true, status := fun _ => 259 } 259
    rfl (by decide) rfl rfl (by decide)).2.2.1

/-! ## The waiting line -/

/-- C14: a tick prints the waiting line exactly when it passes the done and
throttle gates, the host is not ready and the clock reading modulo 4000 is
below 100, and it prints it at most once; hence along a sequence of ticks from
the initial state with non-decreasing clock readings below 2^32, two distinct
ticks that print the waiting line have readings in different aligned 4000-ms
windows. -/
theorem waiting_diagnostic_rate (is : List TickInput)
    (hmono : is.Pairwise (fun x y => x.now ≤ y.now)) (hwrap : ∀ i ∈ is, i.now < WORD) :
    (∀ (s : ControllerState) (i : TickInput),
      (Diag.waiting ∈ diagnostics (tick s i).2 ↔
        (attempts s i = true ∧ i.ready = false ∧ i.now % 4000 < 100)) ∧
      (diagnostics (tick s i).2).count Diag.waiting ≤ 1) ∧
    (∀ (j k : Nat) (ij ik : TickInput), j < k → is[j]? = some ij → is[k]? = some ik →
      Diag.waiting ∈ diagnostics (eventsAt initState is j) →
      Diag.waiting ∈ diagnostics (eventsAt initState is k) →
      ij.now / 4000 ≠ ik.now / 4000) := by
  refine ⟨fun s i => ⟨tick_waiting_iff s i, tick_waiting_count s i⟩, ?_⟩
  intro j k ij ik hjk hj hk hwj hwk
  simp only [eventsAt, hj] at hwj
  simp only [eventsAt, hk] at hwk
  obtain ⟨haj, _, hmj⟩ := (tick_waiting_iff _ ij).mp hwj
  obtain ⟨hak, _, hmk⟩ := (tick_waiting_iff _ ik).mp hwk
  have hsp := attempts_spaced initState is hmono hwrap j k ij ik hjk hj hk haj hak
  omega

/-- Witness of C14: waiting lines at 4050 ms and 8010 ms (windows 1 and 2) with
a throttled tick at 4080 ms in between. -/
theorem waiting_diagnostic_rate_witness :
    Diag.waiting ∈ diagnostics (eventsAt initState
      [{ now := 4050, ready := false, status := fun _ => ESP_OK },
       { now := 4080, ready := false, status := fun _ => ESP_OK },
       { now := 8010, ready := false, status := fun _ => ESP_OK }] 0) ∧
    Diag.waiting ∈ diagnostics (eventsAt initState
      [{ now := 4050, ready := false, status := fun _ => ESP_OK },
       { now := 4080, ready := false, status := fun _ => ESP_OK },
       { now := 8010, ready := false, status := fun _ => ESP_OK }] 2) ∧
    (4050 : Nat) / 4000 ≠ 8010 / 4000 :=
  ⟨by decide, by decide,
   (waiting_diagnostic_rate
      [{ now := 4050, ready := false, status := fun _ => ESP_OK },
       { now := 4080, ready := false, status := fun _ => ESP_OK },
       { now := 8010, ready := false, status := fun _ => ESP_OK }]
      (by simp) (by simp [WORD])).2 0 2
      { now := 4050, ready := false, status := fun _ => ESP_OK }
      { now := 8010, ready := false, status := fun _ => ESP_OK }
      (by decide) rfl rfl (by decide) (by decide)⟩

/-! ## The classifier dispatch and its reads -/

/-- C15: for a descriptor with the interface tag whose class, subclass and
protocol bytes are `cls`, `sub`, `proto`, the callback prints the interface
record with these three bytes first, and nothing else but a hub or mass-storage
line after it; for every other tag it prints nothing, whatever the bytes. -/
theorem onConfig_dispatch (t : Nat) (p : List Nat) :
    (t = USB_INTERFACE_DESC → ∀ cls sub proto : Nat,
      p[5]? = some cls → p[6]? = some sub → p[7]? = some proto →
      ∃ rest, onConfig t p = some (Diag.intf cls sub proto :: rest) ∧
        ∀ d ∈ rest, d = Diag.hubDetected ∨ d = Diag.massStorageDetected) ∧
    (t ≠ USB_INTERFACE_DESC → onConfig t p = some []) := by
  constructor
  · intro ht cls sub proto h5 h6 h7
    subst ht
    refine ⟨_, by simp only [onConfig, readByte, h5, h6, h7, if_true]; rfl, ?_⟩
    intro d hd
    split_ifs at hd <;> simp_all
  · intro ht
    simp [onConfig, ht]

/-- Witness of C15: a mass-storage interface descriptor, and the same bytes
under the endpoint tag 5. -/
theorem onConfig_dispatch_witness :
    (∃ rest, onConfig USB_INTERFACE_DESC [9, 4, 0, 0, 2, 8, 6, 80, 0] =
        some (Diag.intf 8 6 80 :: rest) ∧
      ∀ d ∈ rest, d = Diag.hubDetected ∨ d = Diag.massStorageDetected) ∧
    onConfig 5 [9, 4, 0, 0, 2, 8, 6, 80, 0] = some [] :=
  ⟨(onConfig_dispatch USB_INTERFACE_DESC [9, 4, 0, 0, 2, 8, 6, 80, 0]).1 rfl 8 6 80 rfl rfl rfl,
   (onConfig_dispatch 5 [9, 4, 0, 0, 2, 8, 6, 80, 0]).2 (by decide)⟩

/-- C16: the callback reads the bytes at offsets 5, 6 and 7 of an
interface-tagged descriptor without any length check: the three reads are in
bounds, and the callback returns normally, exactly when the buffer holds at
least 8 bytes; on a shorter buffer a read falls outside the buffer (the
descriptor is not skipped); and the result does not depend on the length byte
at offset 0. -/
theorem onConfig_unchecked_length (p : List Nat) :
    (((readByte p 5).isSome = true ∧ (readByte p 6).isSome = true ∧
        (readByte p 7).isSome = true) ↔ 8 ≤ p.length) ∧
    ((onConfig USB_INTERFACE_DESC p).isSome = true ↔ 8 ≤ p.length) ∧
    (p.length < 8 → onConfig USB_INTERFACE_DESC p = none ∧
      onConfig USB_INTERFACE_DESC p ≠ some []) ∧
    (∀ v : Nat, onConfig USB_INTERFACE_DESC (p.set 0 v) = onConfig USB_INTERFACE_DESC p) := by
  have hreads : ((readByte p 5).isSome = true ∧ (readByte p 6).isSome = true ∧
      (readByte p 7).isSome = true) ↔ 8 ≤ p.length := by
    rw [readByte_isSome, readByte_isSome, readByte_isSome]
    omega
  have hsome : (onConfig USB_INTERFACE_DESC p).isSome = true ↔ 8 ≤ p.length := by
    rw [← hreads]
    simp only [onConfig, if_true]
    cases readByte p 5 <;> cases readByte p 6 <;> cases readByte p 7 <;> simp
  refine ⟨hreads, hsome, ?_, ?_⟩
  · intro hlt
    have hnone : onConfig USB_INTERFACE_DESC p = none := by
      cases h : onConfig USB_INTERFACE_DESC p with
      | none => rfl
      | some out =>
        have := hsome.mp (by rw [h]; rfl)
        omega
    exact ⟨hnone, by rw [hnone]; simp⟩
  · intro v
    simp [onConfig, readByte, List.getElem?_set_ne]

/-- Witness of C16: an interface descriptor cut after its seventh byte, and the
full descriptor with a length byte of 2. -/
theorem onConfig_unchecked_length_witness :
    onConfig USB_INTERFACE_DESC [9, 4, 0, 0, 1, 9, 0] = none ∧
    onConfig USB_INTERFACE_DESC ([9, 4, 0, 0, 1, 9, 0, 0, 0].set 0 2) =
      onConfig USB_INTERFACE_DESC [9, 4, 0, 0, 1, 9, 0, 0, 0] :=
  ⟨((onConfig_unchecked_length [9, 4, 0, 0, 1, 9, 0]).2.2.1 (by decide)).1,
   (onConfig_unchecked_length [9, 4, 0, 0, 1, 9, 0, 0, 0]).2.2.2 2⟩

/-! ## The throttle and the 32-bit counter -/

/-- C17: if the clock reading of a tick is the stored timestamp advanced by a
true duration `d` below 2^32 ms, modulo 2^32, then the elapsed time computed by
the tick is `d` and the tick passes the throttle if and only if `d` exceeds
2000, whether or not the reading is numerically below the timestamp: with the
flag false the tick then sets the timestamp to the reading, and otherwise it
does nothing. -/
theorem throttle_wraparound (s : ControllerState) (i : TickInput) (d : Nat)
    (hd : d < WORD) (hnow : i.now = (s.lastAttemptTime + d) % WORD) :
    sub32 i.now s.lastAttemptTime = d ∧
    (throttleOpen s i = true ↔ 2000 < d) ∧
    (s.portsConfigsDone = false → 2000 < d → (tick s i).1.lastAttemptTime = i.now) ∧
    (d ≤ 2000 → tick s i = (s, [])) := by
  have hel : sub32 i.now s.lastAttemptTime = d := by
    rw [hnow]
    exact sub32_add_mod s.lastAttemptTime d hd
  refine ⟨hel, by simp [throttleOpen, hel], ?_, ?_⟩
  · intro hdone hlt
    rcases tick_last s i with h | h
    · have := h.1
      simp [attempts, throttleOpen, hel, hdone, hlt] at this
    · exact h.2
  · intro hle
    exact tick_throttled s i (by rw [hel]; exact hle)

/-- Witness of C17: the timestamp 2^32 - 500; the reading 1600 (2100 ms later)
passes the throttle, the reading 1500 (2000 ms later) does not. -/
theorem throttle_wraparound_witness :
    throttleOpen { portsConfigsDone := false, lastAttemptTime := 4294966796 }
      { now := 1600, ready := true, status := fun _ => ESP_OK } = true ∧
    throttleOpen { portsConfigsDone := false, lastAttemptTime := 4294966796 }
      { now := 1500, ready := true, status := fun _ => ESP_OK } = false :=
  ⟨((throttle_wraparound { portsConfigsDone := false, lastAttemptTime := 4294966796 }
      { now := 1600, ready := true, status := fun _ => ESP_OK } 2100
      (by decide) (by decide)).2.1).mpr (by decide),
   by
    have h := (throttle_wraparound { portsConfigsDone := false, lastAttemptTime := 4294966796 }
      { now := 1500, ready := true, status := fun _ => ESP_OK } 2000
      (by decide) (by decide)).2.1
    cases hc : throttleOpen { portsConfigsDone := false, lastAttemptTime := 4294966796 }
      { now := 1500, ready := true, status := fun _ => ESP_OK } with
    | false => rfl
    | true => exact absurd (h.mp hc) (by decide)⟩

/-- C18: from the initial state a tick whose clock reading is at most 2000 ms
does nothing, whatever the readiness and the statuses: no event, no submission,
state unchanged, and so for any sequence of such ticks; and the first tick of a
sequence that performs an attempt has a clock reading above 2000 ms. -/
theorem no_attempt_up_to_2000 (is : List TickInput) :
    (∀ i : TickInput, i.now ≤ 2000 →
      tick initState i = (initState, []) ∧ submissions (tick initState i).2 = []) ∧
    ((∀ i ∈ is, i.now ≤ 2000) → runTicks initState is = (initState, [])) ∧
    (∀ (k : Nat) (i : TickInput), is[k]? = some i →
      (∀ (j : Nat) (ij : TickInput), j < k → is[j]? = some ij →
        attempts (stateAt initState is j) ij = false) →
      attempts (stateAt initState is k) i = true → 2000 < i.now) := by
  refine ⟨fun i hi => ⟨tick_init_early i hi, by rw [tick_init_early i hi]; rfl⟩, ?_, ?_⟩
  · intro hall
    induction is with
    | nil => rfl
    | cons i rest ih =>
      have h1 := tick_init_early i (hall i (List.mem_cons_self _ _))
      have h2 := ih (fun x hx => hall x (List.mem_cons_of_mem _ hx))
      simp [runTicks, h1, h2]
  · intro k i _ hfirst hatt
    rw [stateAt_of_no_attempt initState is k hfirst] at hatt
    exact attempts_init_late i hatt

/-- Witness of C18: a ready tick at 2000 ms with a succeeding submission does
nothing; in the sequence 1500, 2000, 2001 the first attempt is tick 2. -/
theorem no_attempt_up_to_2000_witness :
    tick initState { now := 2000, ready := true, status := fun _ => ESP_OK } = (initState, []) ∧
    (2000 : Nat) < 2001 :=
  ⟨((no_attempt_up_to_2000 []).1
      { now := 2000, ready := true, status := fun _ => ESP_OK } (by decide)).1,
   (no_attempt_up_to_2000
      [{ now := 1500, ready := true, status := fun _ => ESP_OK },
       { now := 2000, ready := true, status := fun _ => ESP_OK },
       { now := 2001, ready := true, status := fun _ => ESP_OK }]).2.2 2
      { now := 2001, ready := true, status := fun _ => ESP_OK } rfl
      (by
        intro j ij hj hij
        rcases j with _ | _ | j
        · simp at hij; subst hij; decide
        · simp at hij; subst hij; decide
        · omega)
      (by decide)⟩

end BydStats
